import Mathlib

/-!
Verification of the travel-guide page script (`src/script.js`).

The script has two behaviours with actual logic:
* the smooth-scroll click handler on anchor links (`initSmoothScroll`),
  whose animation uses a quadratic ease-in-out function `ease`;
* the auto-hiding header scroll handler (`initFixedHeaderEffect`'s
  `headerScrollHandler`), a small state machine over the two CSS classes
  `header-hidden` and `header-scrolled` and the stored `lastScrollTop`.

Numeric quantities (scroll offsets, times, distances) are modelled as
rationals; the DOM class list on the header is modelled as two booleans.
-/

namespace TravelGuide

/-- The easing function from `initSmoothScroll` (src/script.js lines 98-103):

    function ease(t, b, c, d) {
        t /= d / 2;
        if (t < 1) return c / 2 * t * t + b;
        t--;
        return -c / 2 * (t * (t - 2) - 1) + b;
    }

`t` is elapsed time, `b` the start position, `c` the distance, `d` the
duration.  The JS mutations `t /= d / 2` and `t--` are inlined. -/
def ease (t b c d : ℚ) : ℚ :=
  if t / (d / 2) < 1 then
    c / 2 * (t / (d / 2)) * (t / (d / 2)) + b
  else
    -c / 2 * ((t / (d / 2) - 1) * ((t / (d / 2) - 1) - 2) - 1) + b

/-- The time-shape of `ease`, factored out: `ease t b c d = b + c * easeShape t d`. -/
def easeShape (t d : ℚ) : ℚ :=
  if t / (d / 2) < 1 then
    (t / (d / 2)) * (t / (d / 2)) / 2
  else
    -((t / (d / 2) - 1) * ((t / (d / 2) - 1) - 2) - 1) / 2

lemma ease_eq_shape (t b c d : ℚ) : ease t b c d = b + c * easeShape t d := by
  unfold ease easeShape
  split <;> ring

/-- Minimum scroll offset before the header may hide (src/script.js line 121). -/
def scrollThreshold : ℚ := 100

/-- Minimum scroll delta that triggers a hide/show change (src/script.js line 122). -/
def deltaThreshold : ℚ := 5

/-- The header's observable state: presence of the `header-hidden` and
`header-scrolled` classes, and the stored `lastScrollTop`. -/
structure HeaderState where
  hidden : Bool
  scrolled : Bool
  lastScrollTop : ℚ
  deriving DecidableEq, Repr

/-- The state before any handler invocation: no classes on the header and
`lastScrollTop = 0` (src/script.js line 120). -/
def initialHeaderState : HeaderState :=
  { hidden := false, scrolled := false, lastScrollTop := 0 }

/-- One invocation of `headerScrollHandler` (src/script.js lines 124-159),
as a function from the current scroll offset and the prior state to the
next state:

    const currentScroll = window.pageYOffset || document.documentElement.scrollTop;
    if (currentScroll < 0) { return; }
    if (currentScroll <= scrollThreshold) {
        header.classList.remove('header-hidden');
        header.classList.remove('header-scrolled');
        lastScrollTop = currentScroll;
        return;
    }
    const scrollDelta = currentScroll - lastScrollTop;
    if (Math.abs(scrollDelta) < deltaThreshold) { return; }
    if (scrollDelta > 0) {
        header.classList.add('header-hidden');
        header.classList.add('header-scrolled');
    } else {
        header.classList.remove('header-hidden');
        header.classList.add('header-scrolled');
    }
    lastScrollTop = currentScroll;
-/
def headerScrollHandler (currentScroll : ℚ) (st : HeaderState) : HeaderState :=
  if currentScroll < 0 then
    st
  else if currentScroll ≤ scrollThreshold then
    { hidden := false, scrolled := false, lastScrollTop := currentScroll }
  else
    if |currentScroll - st.lastScrollTop| < deltaThreshold then
      st
    else if currentScroll - st.lastScrollTop > 0 then
      { hidden := true, scrolled := true, lastScrollTop := currentScroll }
    else
      { hidden := false, scrolled := true, lastScrollTop := currentScroll }

/-- Observable outcome of one click on an anchor link: whether the handler
called `e.preventDefault()`, and whether it started the scroll animation
(the only way the handler changes the page's scroll position, via
`window.scrollTo` on animation frames). -/
structure ClickOutcome where
  preventDefault : Bool
  startsAnimation : Bool
  deriving DecidableEq, Repr

/-- The anchor click handler of `initSmoothScroll` (src/script.js lines
69-107).  `resolve href` models whether `document.querySelector(href)`
finds a target element in the page:

    const href = this.getAttribute('href');
    if (href === '#') { e.preventDefault(); return; }
    const target = document.querySelector(href);
    if (target) { e.preventDefault(); ... requestAnimFrame(animation); }
-/
def smoothScrollClick (href : String) (resolve : String → Bool) : ClickOutcome :=
  if href = "#" then
    { preventDefault := true, startsAnimation := false }
  else if resolve href then
    { preventDefault := true, startsAnimation := true }
  else
    { preventDefault := false, startsAnimation := false }

end TravelGuide

namespace TravelGuide

/-- C3: for every start position `b`, distance `c` and positive duration `d`,
the ease function starts at `b` (at `t = 0`) and ends at `b + c` (at `t = d`). -/
theorem ease_endpoints (b c d : ℚ) (hd : 0 < d) :
    ease 0 b c d = b ∧ ease d b c d = b + c := by
  have hdne : d ≠ 0 := ne_of_gt hd
  constructor
  · unfold ease
    norm_num
  · unfold ease
    have h2 : d / (d / 2) = 2 := by
      field_simp
    rw [h2]
    norm_num
    ring

/-- Witness for `ease_endpoints` at `b = 3`, `c = 7`, `d = 1000`. -/
theorem ease_endpoints_witness :
    ease 0 3 7 1000 = 3 ∧ ease 1000 3 7 1000 = 3 + 7 :=
  ease_endpoints 3 7 1000 (by norm_num)

lemma easeShape_mono {t₁ t₂ d : ℚ} (hd : 0 < d) (h0 : 0 ≤ t₁) (h12 : t₁ ≤ t₂)
    (h2d : t₂ ≤ d) : easeShape t₁ d ≤ easeShape t₂ d := by
  have hd2 : 0 < d / 2 := by linarith
  set u₁ := t₁ / (d / 2) with hu₁
  set u₂ := t₂ / (d / 2) with hu₂
  have hu0 : 0 ≤ u₁ := div_nonneg h0 (le_of_lt hd2)
  have hu12 : u₁ ≤ u₂ := div_le_div_of_nonneg_right h12 (le_of_lt hd2)
  have hu2 : u₂ ≤ 2 := by
    rw [hu₂, div_le_iff₀ hd2]
    linarith
  unfold easeShape
  rw [← hu₁, ← hu₂]
  split
  · split
    · nlinarith
    · nlinarith
  · split
    · linarith
    · nlinarith [mul_nonneg (by linarith : (0:ℚ) ≤ u₂ - u₁)
        (by linarith : (0:ℚ) ≤ 4 - u₁ - u₂)]

/-- C4: over `[0, d]` the ease function is monotone in the direction of the
distance `c`: nondecreasing in time when `c ≥ 0`, nonincreasing when
`c ≤ 0`. -/
theorem ease_monotone (b c d t₁ t₂ : ℚ) (hd : 0 < d) (h0 : 0 ≤ t₁)
    (h12 : t₁ ≤ t₂) (h2d : t₂ ≤ d) :
    (0 ≤ c → ease t₁ b c d ≤ ease t₂ b c d) ∧
    (c ≤ 0 → ease t₂ b c d ≤ ease t₁ b c d) := by
  have hshape := easeShape_mono hd h0 h12 h2d
  rw [ease_eq_shape, ease_eq_shape]
  constructor
  · intro hc
    nlinarith [mul_nonneg hc (sub_nonneg.mpr hshape)]
  · intro hc
    nlinarith [mul_nonneg (neg_nonneg.mpr hc) (sub_nonneg.mpr hshape)]

/-- Witness for `ease_monotone` at `b = 10`, `c = 40`, `d = 1000`,
`t₁ = 200`, `t₂ = 800`. -/
theorem ease_monotone_witness :
    (0 ≤ (40:ℚ) → ease 200 10 40 1000 ≤ ease 800 10 40 1000) ∧
    ((40:ℚ) ≤ 0 → ease 800 10 40 1000 ≤ ease 200 10 40 1000) :=
  ease_monotone 10 40 1000 200 800 (by norm_num) (by norm_num) (by norm_num)
    (by norm_num)

/-- C5: the ease function is symmetric about the midpoint of the duration:
for `t ∈ [0, d]`, `ease t b c d + ease (d - t) b c d = 2 * b + c`. -/
theorem ease_midpoint_symm (b c d t : ℚ) (hd : 0 < d) (h0 : 0 ≤ t)
    (htd : t ≤ d) :
    ease t b c d + ease (d - t) b c d = 2 * b + c := by
  have hdne : d ≠ 0 := ne_of_gt hd
  have key : (d - t) / (d / 2) = 2 - t / (d / 2) := by
    field_simp
    ring
  unfold ease
  rw [key]
  set u := t / (d / 2) with hu
  split
  · split
    · linarith [‹u < 1›, ‹2 - u < 1›]
    · ring
  · split
    · ring
    · have h1 : 1 ≤ u := le_of_not_lt ‹¬ u < 1›
      have h2 : u ≤ 1 := by linarith [le_of_not_lt ‹¬ 2 - u < 1›]
      have : u = 1 := le_antisymm h2 h1
      rw [this]
      ring

/-- Witness for `ease_midpoint_symm` at `b = 5`, `c = 30`, `d = 1000`,
`t = 250`. -/
theorem ease_midpoint_symm_witness :
    ease 250 5 30 1000 + ease (1000 - 250) 5 30 1000 = 2 * 5 + 30 :=
  ease_midpoint_symm 5 30 1000 250 (by norm_num) (by norm_num) (by norm_num)

/-- C6: for any non-negative offset `s ≤ scrollThreshold = 100`, the handler
forces the state to `none` (both classes removed) regardless of the prior
state, and sets `lastScrollTop := s`. -/
theorem header_top_forces_none (st : HeaderState) (s : ℚ) (h0 : 0 ≤ s)
    (h100 : s ≤ scrollThreshold) :
    headerScrollHandler s st =
      { hidden := false, scrolled := false, lastScrollTop := s } := by
  unfold headerScrollHandler
  rw [if_neg (not_lt.mpr h0), if_pos h100]

/-- Witness for `header_top_forces_none`: offset `100` from a hidden and
scrolled state. -/
theorem header_top_forces_none_witness :
    headerScrollHandler 100
        { hidden := true, scrolled := true, lastScrollTop := 500 } =
      { hidden := false, scrolled := false, lastScrollTop := 100 } :=
  header_top_forces_none
    { hidden := true, scrolled := true, lastScrollTop := 500 } 100
    (by norm_num) (by norm_num [scrollThreshold])

/-- C2 (counterexample): with prior state `lastScrollTop = 102` and the
`header-scrolled` class present, the offset `100` has delta magnitude
`2 < 5`, yet the invocation changes both `lastScrollTop` (to `100`) and the
header's classes (removes `header-scrolled`), because the
`s ≤ scrollThreshold` branch runs before the delta check. -/
theorem header_small_delta_counterexample :
    |(100:ℚ) - ({ hidden := false, scrolled := true, lastScrollTop := 102 :
        HeaderState}).lastScrollTop| < deltaThreshold ∧
    headerScrollHandler 100
        { hidden := false, scrolled := true, lastScrollTop := 102 } ≠
      { hidden := false, scrolled := true, lastScrollTop := 102 } := by
  constructor
  · norm_num [deltaThreshold]
  · norm_num [headerScrollHandler, scrollThreshold, HeaderState.mk.injEq]

/-- C2 (amended): for an invocation whose offset `s` exceeds
`scrollThreshold = 100` and whose delta from the stored `lastScrollTop` has
magnitude strictly less than `deltaThreshold = 5`, the handler changes
nothing: neither the classes nor `lastScrollTop`. -/
theorem header_small_delta_ignored (st : HeaderState) (s : ℚ)
    (hs : scrollThreshold < s) (hδ : |s - st.lastScrollTop| < deltaThreshold) :
    headerScrollHandler s st = st := by
  have h0 : ¬ s < 0 := by
    simp only [scrollThreshold] at hs
    linarith
  unfold headerScrollHandler
  rw [if_neg h0, if_neg (not_le.mpr hs), if_pos hδ]

/-- Witness for `header_small_delta_ignored`: offset `200` against a stored
`lastScrollTop = 198` (delta `2`). -/
theorem header_small_delta_ignored_witness :
    headerScrollHandler 200
        { hidden := true, scrolled := true, lastScrollTop := 198 } =
      { hidden := true, scrolled := true, lastScrollTop := 198 } :=
  header_small_delta_ignored
    { hidden := true, scrolled := true, lastScrollTop := 198 } 200
    (by norm_num [scrollThreshold]) (by norm_num [deltaThreshold])

/-- C8: from the initial state, the offset sequence `0, 50, 120, 200` yields
the state sequence none, none, hidden+scrolled, hidden+scrolled. -/
theorem header_sequence_0_50_120_200 :
    headerScrollHandler 0 initialHeaderState =
      { hidden := false, scrolled := false, lastScrollTop := 0 } ∧
    headerScrollHandler 50 (headerScrollHandler 0 initialHeaderState) =
      { hidden := false, scrolled := false, lastScrollTop := 50 } ∧
    headerScrollHandler 120 (headerScrollHandler 50
        (headerScrollHandler 0 initialHeaderState)) =
      { hidden := true, scrolled := true, lastScrollTop := 120 } ∧
    headerScrollHandler 200 (headerScrollHandler 120 (headerScrollHandler 50
        (headerScrollHandler 0 initialHeaderState))) =
      { hidden := true, scrolled := true, lastScrollTop := 200 } := by
  norm_num [headerScrollHandler, initialHeaderState, scrollThreshold,
    deltaThreshold]

/-- C9: from the initial state, offset `300` produces the hidden+scrolled
state, and the subsequent offset `150` (delta `-150`) transitions to the
scrolled-but-visible state. -/
theorem header_sequence_300_150 :
    headerScrollHandler 300 initialHeaderState =
      { hidden := true, scrolled := true, lastScrollTop := 300 } ∧
    headerScrollHandler 150 (headerScrollHandler 300 initialHeaderState) =
      { hidden := false, scrolled := true, lastScrollTop := 150 } := by
  norm_num [headerScrollHandler, initialHeaderState, scrollThreshold,
    deltaThreshold]

/-- C10: every invocation of the scroll handler preserves the invariant that
the `header-hidden` class is only ever present together with the
`header-scrolled` class (the invariant holds in the initial state, where
neither class is present). -/
theorem header_hidden_implies_scrolled (st : HeaderState) (s : ℚ)
    (h : st.hidden = true → st.scrolled = true) :
    (headerScrollHandler s st).hidden = true →
      (headerScrollHandler s st).scrolled = true := by
  unfold headerScrollHandler
  split
  · exact h
  · split
    · simp
    · split
      · exact h
      · split <;> simp

/-- Witness for `header_hidden_implies_scrolled` at offset `300` from a
hidden+scrolled state with `lastScrollTop = 200`: the resulting state keeps
the `header-scrolled` class. -/
theorem header_hidden_implies_scrolled_witness :
    (headerScrollHandler 300
        { hidden := true, scrolled := true, lastScrollTop := 200 }).scrolled
      = true :=
  header_hidden_implies_scrolled
    { hidden := true, scrolled := true, lastScrollTop := 200 } 300
    (fun _ => rfl)
    (by norm_num [headerScrollHandler, scrollThreshold, deltaThreshold])

/-- C1 (counterexample): a click on a link whose href is exactly `'#'` does
call `e.preventDefault()`, so default navigation is suppressed, contrary to
the claim (whatever the page's lookup resolves). -/
theorem empty_anchor_counterexample :
    (smoothScrollClick "#" (fun _ => false)).preventDefault = true := by
  norm_num [smoothScrollClick]

/-- C1 (amended): a click on a link whose href is exactly `'#'` starts no
scroll animation (the handler leaves the scroll position unchanged) but it
does suppress default navigation by calling `e.preventDefault()`. -/
theorem empty_anchor_click (resolve : String → Bool) :
    smoothScrollClick "#" resolve =
      { preventDefault := true, startsAnimation := false } := by
  norm_num [smoothScrollClick]

/-- C7: a click on a link whose href is not `'#'` and resolves to no element
in the page neither starts a scroll animation (scroll position unchanged)
nor calls `e.preventDefault()`. -/
theorem unresolved_anchor_click (href : String) (resolve : String → Bool)
    (hne : href ≠ "#") (hmiss : resolve href = false) :
    smoothScrollClick href resolve =
      { preventDefault := false, startsAnimation := false } := by
  unfold smoothScrollClick
  rw [if_neg hne, hmiss, if_neg (Bool.false_ne_true)]

/-- Witness for `unresolved_anchor_click` at href `'#missing'` with a lookup
that resolves nothing. -/
theorem unresolved_anchor_click_witness :
    smoothScrollClick "#missing" (fun _ => false) =
      { preventDefault := false, startsAnimation := false } :=
  unresolved_anchor_click "#missing" (fun _ => false) (by decide) rfl

end TravelGuide
